import Mathlib

/-!
Shallow embedding of the pose-detection exercise tracker from
src/client/src/components/camera/PoseDetection.tsx.

The embedding covers the repetition counter (countReps), the posture
scorer (the score computation and the rate-limited emission inside
analyzePose), and the result handler (onPoseResults).  Mutable refs and
React state become explicit state records; the debounce-clearing
setTimeout becomes an explicit fire time (repClearAt) consumed by
fireDebounceTimer before each frame; coordinates and timestamps are
rationals; callback invocations become Option-valued emissions.
-/

namespace PoseTrack

/-- Movement direction of the repetition counter: the TypeScript union
up | down | none held in movementDirection. -/
inductive Direction
  | up
  | down
  | none
deriving DecidableEq

/-- A body landmark: normalized coordinates plus optional visibility,
mirroring the PoseLandmark interface. -/
structure Landmark where
  x : ℚ
  y : ℚ
  z : ℚ
  visibility : Option ℚ
deriving DecidableEq

/-- Default landmark used only for out-of-range list access; frames that
pass the length-at-least-33 guard never reach it at indices 0, 11, 12,
23, 24. -/
def dLandmark : Landmark := ⟨0, 0, 0, Option.none⟩

/-- Repetition counter state: the refs previousHipY, movementDirection,
repInProgress and the repCount state, plus repClearAt, the fire time of
the pending debounce-clearing setTimeout (meaningful while repInProgress
is true; the code schedules it 1000ms after counting a rep). -/
structure CounterState where
  previousHipY : ℚ
  movementDirection : Direction
  repInProgress : Bool
  repClearAt : ℚ
  repCount : ℕ
deriving DecidableEq

/-- Posture scorer state: the lastPostureCheck timestamp. -/
structure ScorerState where
  lastPostureCheck : ℚ
deriving DecidableEq

/-- Movement threshold from countReps: const threshold = 0.02. -/
def threshold : ℚ := 2 / 100

/-- Fresh-session counter state: useRef(0), useRef of none, useRef(false),
useState(0). -/
def initCounter : CounterState :=
  { previousHipY := 0, movementDirection := Direction.none,
    repInProgress := false, repClearAt := 0, repCount := 0 }

/-- Fresh-session scorer state: useState(0). -/
def initScorer : ScorerState := { lastPostureCheck := 0 }

/-- Embedding of countReps(currentHipY).  The first component is the
updated counter state, the second the onRepCount emission.  The now
argument records the frame time, used only to schedule the
debounce-clearing timeout (setTimeout of 1000ms) as repClearAt. -/
def countReps (st : CounterState) (now : ℚ) (currentHipY : ℚ) :
    CounterState × Option ℕ :=
  if st.previousHipY = 0 then
    ({ st with previousHipY := currentHipY }, Option.none)
  else
    let movement := currentHipY - st.previousHipY
    if threshold < |movement| then
      let newDirection := if 0 < movement then Direction.down else Direction.up
      if st.movementDirection = Direction.down ∧ newDirection = Direction.up ∧
          st.repInProgress = false then
        let newRepCount := st.repCount + 1
        ({ st with repCount := newRepCount, repInProgress := true,
                   repClearAt := now + 1000,
                   movementDirection := newDirection,
                   previousHipY := currentHipY },
         Option.some newRepCount)
      else
        ({ st with movementDirection := newDirection,
                   previousHipY := currentHipY }, Option.none)
    else
      ({ st with previousHipY := currentHipY }, Option.none)

/-- The debounce-clearing setTimeout callback: at any time at or past the
scheduled fire time, repInProgress is set back to false.  It depends only
on the clock, not on frame content. -/
def fireDebounceTimer (st : CounterState) (now : ℚ) : CounterState :=
  if st.repInProgress = true ∧ st.repClearAt ≤ now then
    { st with repInProgress := false }
  else st

/-- One counter step at wall time now: any due debounce timeout fires
first, then countReps processes the hip-center height. -/
def stepCounter (st : CounterState) (now : ℚ) (hipY : ℚ) :
    CounterState × Option ℕ :=
  countReps (fireDebounceTimer st now) now hipY

/-- Run the counter over a list of (time, hip-center height) frames. -/
def runCounter (st : CounterState) : List (ℚ × ℚ) → CounterState
  | [] => st
  | (t, y) :: rest => runCounter (stepCounter st t y).1 rest

/-- Nose y coordinate: landmarks[0].y. -/
def noseY (lms : List Landmark) : ℚ := (lms.getD 0 dLandmark).y

/-- Shoulder-center y: (landmarks[11].y + landmarks[12].y) / 2. -/
def shoulderCenterY (lms : List Landmark) : ℚ :=
  ((lms.getD 11 dLandmark).y + (lms.getD 12 dLandmark).y) / 2

/-- Hip-center y: (landmarks[23].y + landmarks[24].y) / 2. -/
def hipCenterY (lms : List Landmark) : ℚ :=
  ((lms.getD 23 dLandmark).y + (lms.getD 24 dLandmark).y) / 2

/-- Spine alignment deviation: Math.abs(nose.y - shoulderCenterY - hipCenterY). -/
def spineAlignment (lms : List Landmark) : ℚ :=
  |noseY lms - shoulderCenterY lms - hipCenterY lms|

/-- Posture score: Math.max(0, Math.min(100, 100 - spineAlignment * 200)). -/
def postureScore (lms : List Landmark) : ℚ :=
  max 0 (min 100 (100 - spineAlignment lms * 200))

/-- JavaScript Math.round on a rational: floor of q + 1/2 (round half up). -/
def jsRound (q : ℚ) : ℤ := ⌊q + 1 / 2⌋

/-- The rate-limited emission step inside analyzePose: emit the rounded
score and reset lastPostureCheck when strictly more than 1000ms have
passed since the last check, otherwise leave the scorer untouched. -/
def scorerStep (ss : ScorerState) (now : ℚ) (lms : List Landmark) :
    ScorerState × Option ℤ :=
  if 1000 < now - ss.lastPostureCheck then
    ({ lastPostureCheck := now }, Option.some (jsRound (postureScore lms)))
  else (ss, Option.none)

/-- Result of processing one frame: updated states plus the
onPostureUpdate and onRepCount emissions. -/
structure AnalyzeOut where
  counter : CounterState
  scorer : ScorerState
  postureEmit : Option ℤ
  repEmit : Option ℕ
deriving DecidableEq

/-- Embedding of analyzePose(landmarks): frames with fewer than 33
landmarks are rejected up front; otherwise the scorer step and
countReps on the hip-center height both run. -/
def analyzePose (cs : CounterState) (ss : ScorerState) (now : ℚ)
    (lms : List Landmark) : AnalyzeOut :=
  if lms.length < 33 then
    ⟨cs, ss, Option.none, Option.none⟩
  else
    let so := scorerStep ss now lms
    let co := countReps cs now (hipCenterY lms)
    ⟨co.1, so.1, so.2, co.2⟩

/-- Embedding of onPoseResults(results).  The source guards only on the
canvas ref and its 2d context, then analyzes whenever poseLandmarks is
present.  The isActive flag of the component is passed here so that
facts about stopped sessions can be stated, but the source callback
never consults it, so the definition ignores it exactly as the code
does. -/
def onPoseResults (hasCanvas : Bool) (hasCtx : Bool) (isActive : Bool)
    (cs : CounterState) (ss : ScorerState) (now : ℚ)
    (poseLandmarks : Option (List Landmark)) : AnalyzeOut :=
  if hasCanvas = false then ⟨cs, ss, Option.none, Option.none⟩
  else if hasCtx = false then ⟨cs, ss, Option.none, Option.none⟩
  else
    match poseLandmarks with
    | Option.none => ⟨cs, ss, Option.none, Option.none⟩
    | Option.some lms => analyzePose cs ss now lms

/-- Times at which onPostureUpdate fires over a run of timed landmark
frames, threading both states through analyzePose. -/
def runSessionEmits (cs : CounterState) (ss : ScorerState) :
    List (ℚ × List Landmark) → List ℚ
  | [] => []
  | (t, lms) :: rest =>
    if (analyzePose cs ss t lms).postureEmit.isSome then
      t :: runSessionEmits (analyzePose cs ss t lms).counter
        (analyzePose cs ss t lms).scorer rest
    else
      runSessionEmits (analyzePose cs ss t lms).counter
        (analyzePose cs ss t lms).scorer rest

/-- Scenario frame of the spec as a full 33-landmark list: nose (index 0)
at y = 0.10, both shoulders (indices 11, 12) at y = 0.30, both hips
(indices 23, 24) at y = 0.70, every other landmark at the default. -/
def scenarioFrame : List Landmark :=
  [⟨0, 1/10, 0, Option.none⟩,
   dLandmark, dLandmark, dLandmark, dLandmark, dLandmark,
   dLandmark, dLandmark, dLandmark, dLandmark, dLandmark,
   ⟨0, 3/10, 0, Option.none⟩, ⟨0, 3/10, 0, Option.none⟩,
   dLandmark, dLandmark, dLandmark, dLandmark, dLandmark,
   dLandmark, dLandmark, dLandmark, dLandmark, dLandmark,
   ⟨0, 7/10, 0, Option.none⟩, ⟨0, 7/10, 0, Option.none⟩,
   dLandmark, dLandmark, dLandmark, dLandmark, dLandmark,
   dLandmark, dLandmark, dLandmark]

/-- Helper: the scenario frame has exactly 33 landmarks. -/
theorem scenarioFrame_length : scenarioFrame.length = 33 := rfl

/-- Helper: the scenario frame scores exactly 0 (deviation 0.9 maps to
100 minus 180, clamped to 0). -/
theorem scenarioFrame_score_zero : postureScore scenarioFrame = 0 := by
  have hy0 : (scenarioFrame.getD 0 dLandmark).y = 1/10 := rfl
  have hy11 : (scenarioFrame.getD 11 dLandmark).y = 3/10 := rfl
  have hy12 : (scenarioFrame.getD 12 dLandmark).y = 3/10 := rfl
  have hy23 : (scenarioFrame.getD 23 dLandmark).y = 7/10 := rfl
  have hy24 : (scenarioFrame.getD 24 dLandmark).y = 7/10 := rfl
  rw [postureScore, spineAlignment, noseY, shoulderCenterY, hipCenterY,
    hy0, hy11, hy12, hy23, hy24,
    show (1:ℚ)/10 - (3/10 + 3/10)/2 - (7/10 + 7/10)/2 = -(9/10) by norm_num,
    abs_neg, abs_of_nonneg (by norm_num : (0:ℚ) ≤ 9/10)]
  norm_num [min_def, max_def]

/-- Helper: countReps never decreases the repetition count. -/
theorem countReps_count_le (st : CounterState) (now y : ℚ) :
    st.repCount ≤ (countReps st now y).1.repCount := by
  simp only [countReps]
  repeat' split
  all_goals first
    | exact le_rfl
    | exact Nat.le_succ _

/-- Helper: the debounce timer never changes the repetition count. -/
theorem fireDebounceTimer_count (st : CounterState) (now : ℚ) :
    (fireDebounceTimer st now).repCount = st.repCount := by
  simp only [fireDebounceTimer]
  split <;> rfl

/-- Helper: one full counter step never decreases the repetition count. -/
theorem stepCounter_count_le (st : CounterState) (now y : ℚ) :
    st.repCount ≤ (stepCounter st now y).1.repCount := by
  rw [stepCounter, ← fireDebounceTimer_count st now]
  exact countReps_count_le _ now y

/-- Helper: when analyzePose emits a posture score, the 1000ms window had
elapsed and lastPostureCheck is reset to the frame time. -/
theorem analyzePose_emit_some_facts (cs : CounterState) (ss : ScorerState)
    (now : ℚ) (lms : List Landmark)
    (h : (analyzePose cs ss now lms).postureEmit.isSome = true) :
    1000 < now - ss.lastPostureCheck ∧
    (analyzePose cs ss now lms).scorer.lastPostureCheck = now := by
  by_cases hl : lms.length < 33
  · simp [analyzePose, hl] at h
  · by_cases hw : 1000 < now - ss.lastPostureCheck
    · exact ⟨hw, by simp [analyzePose, hl, scorerStep, hw]⟩
    · simp [analyzePose, hl, scorerStep, hw] at h

/-- Helper: when analyzePose does not emit a posture score, the scorer
state is untouched. -/
theorem analyzePose_emit_none_scorer (cs : CounterState) (ss : ScorerState)
    (now : ℚ) (lms : List Landmark)
    (h : (analyzePose cs ss now lms).postureEmit.isSome = false) :
    (analyzePose cs ss now lms).scorer = ss := by
  by_cases hl : lms.length < 33
  · simp [analyzePose, hl]
  · by_cases hw : 1000 < now - ss.lastPostureCheck
    · simp [analyzePose, hl, scorerStep, hw] at h
    · simp [analyzePose, hl, scorerStep, hw]

/-- Helper: every posture emission time in a run lies strictly more than
1000ms past the lastPostureCheck the run started from. -/
theorem runSessionEmits_lower_bound (frames : List (ℚ × List Landmark)) :
    ∀ (cs : CounterState) (ss : ScorerState) (x : ℚ),
      x ∈ runSessionEmits cs ss frames → ss.lastPostureCheck + 1000 < x := by
  induction frames with
  | nil =>
    intro cs ss x hx
    simp [runSessionEmits] at hx
  | cons f rest ih =>
    intro cs ss x hx
    obtain ⟨t, lms⟩ := f
    by_cases h : (analyzePose cs ss t lms).postureEmit.isSome
    · rw [runSessionEmits, if_pos h] at hx
      obtain ⟨hw, hlast⟩ := analyzePose_emit_some_facts cs ss t lms h
      rcases List.mem_cons.mp hx with rfl | hx2
      · linarith
      · have hb := ih _ _ _ hx2
        rw [hlast] at hb
        linarith
    · rw [runSessionEmits, if_neg h] at hx
      have hs := analyzePose_emit_none_scorer cs ss t lms
        (Bool.not_eq_true _ ▸ eq_false_of_ne_true h)
      have hb := ih _ _ _ hx
      rw [hs] at hb
      exact hb

/-- Claim C1: with direction down, debounce false and a past-cold-start
previous hip height, a frame whose hip-center delta exceeds the 0.02
threshold upward increments the count by exactly 1, emits the new count
via onRepCount, and sets the debounce flag. -/
theorem countReps_down_up_increments (st : CounterState) (now hipY : ℚ)
    (hdir : st.movementDirection = Direction.down)
    (hdb : st.repInProgress = false)
    (hprev : st.previousHipY ≠ 0)
    (hup : hipY - st.previousHipY < -threshold) :
    (countReps st now hipY).1.repCount = st.repCount + 1 ∧
    (countReps st now hipY).2 = Option.some (st.repCount + 1) ∧
    (countReps st now hipY).1.repInProgress = true := by
  have hneg : hipY - st.previousHipY < 0 := by
    have : (0 : ℚ) < threshold := by norm_num [threshold]
    linarith
  have habs : threshold < |hipY - st.previousHipY| := by
    rw [abs_of_neg hneg]
    linarith
  have hnpos : ¬ (0 < hipY - st.previousHipY) := not_lt.mpr (le_of_lt hneg)
  simp [countReps, hprev, habs, hnpos, hdir, hdb]

/-- Witness for C1: a second qualifying down-then-up reversal once the
debounce flag is clear takes the count from 1 to 2 and emits 2. -/
theorem countReps_down_up_increments_witness :
    (countReps ⟨55/100, Direction.down, false, 1000, 1⟩ 1200 (1/2)).1.repCount = 2 ∧
    (countReps ⟨55/100, Direction.down, false, 1000, 1⟩ 1200 (1/2)).2 = Option.some 2 ∧
    (countReps ⟨55/100, Direction.down, false, 1000, 1⟩ 1200 (1/2)).1.repInProgress = true := by
  have h := countReps_down_up_increments ⟨55/100, Direction.down, false, 1000, 1⟩
    1200 (1/2) rfl rfl (by norm_num) (by norm_num [threshold])
  exact h

/-- Claim C2: a frame whose absolute hip-center delta is at most the
0.02 threshold leaves the count and the direction unchanged and emits
nothing, while the stored previous hip height is still updated. -/
theorem countReps_subthreshold_no_change (st : CounterState) (now hipY : ℚ)
    (h : |hipY - st.previousHipY| ≤ threshold) :
    (countReps st now hipY).1.repCount = st.repCount ∧
    (countReps st now hipY).1.movementDirection = st.movementDirection ∧
    (countReps st now hipY).1.previousHipY = hipY ∧
    (countReps st now hipY).2 = Option.none := by
  by_cases hp : st.previousHipY = 0
  · simp [countReps, hp]
  · have hns : ¬ threshold < |hipY - st.previousHipY| := not_lt.mpr h
    simp [countReps, hp, hns]

/-- Witness for C2: a 0.01 move is ignored apart from the previous-value
update. -/
theorem countReps_subthreshold_no_change_witness :
    (countReps ⟨1/2, Direction.down, false, 0, 3⟩ 0 (51/100)).1.repCount = 3 ∧
    (countReps ⟨1/2, Direction.down, false, 0, 3⟩ 0 (51/100)).1.movementDirection = Direction.down ∧
    (countReps ⟨1/2, Direction.down, false, 0, 3⟩ 0 (51/100)).1.previousHipY = 51/100 ∧
    (countReps ⟨1/2, Direction.down, false, 0, 3⟩ 0 (51/100)).2 = Option.none := by
  have h := countReps_subthreshold_no_change ⟨1/2, Direction.down, false, 0, 3⟩
    0 (51/100) (by
      rw [show (51 : ℚ)/100 - (⟨1/2, Direction.down, false, 0, 3⟩ :
        CounterState).previousHipY = 1/100 by norm_num]
      rw [abs_of_nonneg (by norm_num)]
      norm_num [threshold])
  exact h

/-- Claim C3: while the debounce flag is true and the scheduled clear
time (set 1000ms after the flag was raised) has not been reached, a
frame changes neither the count nor the flag and emits nothing; once
1000ms have elapsed the timer clears the flag regardless of frames. -/
theorem debounce_blocks_until_release (st : CounterState) (s t hipY : ℚ)
    (hdb : st.repInProgress = true) (hset : st.repClearAt = s + 1000) :
    (t < s + 1000 →
       (stepCounter st t hipY).1.repCount = st.repCount ∧
       (stepCounter st t hipY).2 = Option.none ∧
       (stepCounter st t hipY).1.repInProgress = true) ∧
    (s + 1000 ≤ t → (fireDebounceTimer st t).repInProgress = false) := by
  constructor
  · intro ht
    have hnf : ¬ (st.repInProgress = true ∧ st.repClearAt ≤ t) := by
      rintro ⟨-, hle⟩
      rw [hset] at hle
      linarith
    have hfd : fireDebounceTimer st t = st := by
      simp [fireDebounceTimer, hnf]
    rw [stepCounter, hfd]
    by_cases hp : st.previousHipY = 0
    · simp [countReps, hp, hdb]
    · by_cases hm : threshold < |hipY - st.previousHipY|
      · simp [countReps, hp, hm, hdb]
      · simp [countReps, hp, hm, hdb]
  · intro ht
    simp [fireDebounceTimer, hdb, hset, ht]

/-- Witness for C3: with the flag raised at time 0, a qualifying up
frame at 200ms does not count, and the timer alone clears the flag at
1500ms. -/
theorem debounce_blocks_until_release_witness :
    ((stepCounter ⟨1/2, Direction.down, true, 1000, 1⟩ 200 (45/100)).1.repCount = 1 ∧
     (stepCounter ⟨1/2, Direction.down, true, 1000, 1⟩ 200 (45/100)).2 = Option.none ∧
     (stepCounter ⟨1/2, Direction.down, true, 1000, 1⟩ 200 (45/100)).1.repInProgress = true) ∧
    (fireDebounceTimer ⟨1/2, Direction.down, true, 1000, 1⟩ 1500).repInProgress = false := by
  refine ⟨(debounce_blocks_until_release ⟨1/2, Direction.down, true, 1000, 1⟩
      0 200 (45/100) rfl (by norm_num)).1 (by norm_num),
    (debounce_blocks_until_release ⟨1/2, Direction.down, true, 1000, 1⟩
      0 1500 0 rfl (by norm_num)).2 (by norm_num)⟩

/-- Claim C4: the posture score is the clamp to the interval from 0 to
100 of 100 minus 200 times the absolute alignment deviation; the spec
scenario (nose 0.10, shoulders 0.30, hips 0.70) scores 0; and every
frame scores within the interval from 0 to 100. -/
theorem postureScore_formula_scenario_bounds :
    (∀ lms : List Landmark, postureScore lms =
        max 0 (min 100 (100 - |noseY lms - shoulderCenterY lms - hipCenterY lms| * 200))) ∧
    postureScore scenarioFrame = 0 ∧
    (∀ lms : List Landmark, 0 ≤ postureScore lms ∧ postureScore lms ≤ 100) := by
  refine ⟨fun lms => rfl, scenarioFrame_score_zero, fun lms => ⟨le_max_left 0 _, ?_⟩⟩
  exact max_le (by norm_num) (min_le_left 100 _)

/-- Claim C5: over any frame sequence, successive posture emissions are
strictly more than 1000ms apart (the window restarts at each emission
time), and a frame arriving at most 1000ms after the last check is not
surfaced. -/
theorem posture_emission_rate_limited (cs : CounterState) (ss : ScorerState)
    (frames : List (ℚ × List Landmark)) :
    List.Chain' (fun a b => a + 1000 < b) (runSessionEmits cs ss frames) ∧
    (∀ (now : ℚ) (lms : List Landmark), now - ss.lastPostureCheck ≤ 1000 →
       (analyzePose cs ss now lms).postureEmit = Option.none) := by
  constructor
  · induction frames generalizing cs ss with
    | nil => simp [runSessionEmits]
    | cons f rest ih =>
      obtain ⟨t, lms⟩ := f
      by_cases h : (analyzePose cs ss t lms).postureEmit.isSome
      · rw [runSessionEmits, if_pos h]
        refine List.chain'_cons'.mpr ⟨?_, ih _ _⟩
        intro b hb
        have hmem := List.mem_of_mem_head? hb
        have hlow := runSessionEmits_lower_bound rest _ _ b hmem
        rw [(analyzePose_emit_some_facts cs ss t lms h).2] at hlow
        exact hlow
      · rw [runSessionEmits, if_neg h]
        exact ih _ _
  · intro now lms hw
    have hnw : ¬ 1000 < now - ss.lastPostureCheck := not_lt.mpr hw
    by_cases hl : lms.length < 33
    · simp [analyzePose, hl]
    · simp [analyzePose, hl, scorerStep, hnw]

/-- Witness for C5: a frame 500ms after the last check emits nothing. -/
theorem posture_emission_rate_limited_witness :
    (analyzePose initCounter initScorer 500 scenarioFrame).postureEmit = Option.none :=
  (posture_emission_rate_limited initCounter initScorer []).2 500 scenarioFrame
    (by norm_num [initScorer])

/-- Claim C6: the repetition count never decreases across any sequence
of processed frames, and a freshly started session begins at count 0. -/
theorem repCount_monotone_within_session (st : CounterState)
    (frames : List (ℚ × ℚ)) :
    st.repCount ≤ (runCounter st frames).repCount ∧ initCounter.repCount = 0 := by
  refine ⟨?_, rfl⟩
  induction frames generalizing st with
  | nil => simp [runCounter]
  | cons f rest ih =>
    obtain ⟨t, y⟩ := f
    rw [runCounter]
    exact le_trans (stepCounter_count_le st t y) (ih _)

/-- Claim C7: the first frame of a session seeds the previous hip height
with the frame value and changes neither direction nor count, emitting
nothing. -/
theorem first_frame_cold_start (t y : ℚ) :
    (stepCounter initCounter t y).1.previousHipY = y ∧
    (stepCounter initCounter t y).1.repCount = 0 ∧
    (stepCounter initCounter t y).1.movementDirection = Direction.none ∧
    (stepCounter initCounter t y).2 = Option.none := by
  simp [stepCounter, fireDebounceTimer, countReps, initCounter]

/-- Claim C8: a frame with fewer than 33 landmarks is dropped with no
state change and no emission, and a result without landmarks is likewise
a no-op for both scorer and counter. -/
theorem malformed_frame_dropped (cs : CounterState) (ss : ScorerState)
    (now : ℚ) (lms : List Landmark) (h : lms.length < 33) :
    analyzePose cs ss now lms = ⟨cs, ss, Option.none, Option.none⟩ ∧
    onPoseResults true true true cs ss now Option.none =
      ⟨cs, ss, Option.none, Option.none⟩ := by
  exact ⟨by simp [analyzePose, h], rfl⟩

/-- Witness for C8: the empty landmark list is dropped silently. -/
theorem malformed_frame_dropped_witness :
    analyzePose initCounter initScorer 0 [] =
      ⟨initCounter, initScorer, Option.none, Option.none⟩ :=
  (malformed_frame_dropped initCounter initScorer 0 [] (by decide)).1

/-- Claim C9 (code bug): onPoseResults has no session-activity guard, so
a late frame arriving after stop, with the canvas still mounted, still
emits a posture score; the output is identical whether the session is
active or stopped. -/
theorem onPoseResults_after_stop_bug :
    (onPoseResults true true false initCounter initScorer 2000
        (Option.some scenarioFrame)).postureEmit = Option.some 0 ∧
    onPoseResults true true false initCounter initScorer 2000
        (Option.some scenarioFrame) =
      onPoseResults true true true initCounter initScorer 2000
        (Option.some scenarioFrame) := by
  refine ⟨?_, rfl⟩
  have hl : ¬ (scenarioFrame.length < 33) := by
    rw [scenarioFrame_length]
    omega
  have hw : (1000 : ℚ) < 2000 - initScorer.lastPostureCheck := by
    norm_num [initScorer]
  have hround : jsRound (postureScore scenarioFrame) = 0 := by
    rw [jsRound, scenarioFrame_score_zero]
    exact Int.floor_eq_zero_iff.mpr (Set.mem_Ico.mpr ⟨by norm_num, by norm_num⟩)
  show (analyzePose initCounter initScorer 2000 scenarioFrame).postureEmit =
    Option.some 0
  simp [analyzePose, hl, scorerStep, hw, hround]

/-- Claim C10 counterexample: a frame whose hip-center height is exactly
0, arriving with previous height 0.5 and direction down, itself triggers
a counted repetition and a direction transition to up, so such a frame
can contribute to both. -/
theorem zero_frame_can_count_rep :
    (countReps ⟨1/2, Direction.down, false, 0, 0⟩ 0 0).2 = Option.some 1 ∧
    (countReps ⟨1/2, Direction.down, false, 0, 0⟩ 0 0).1.movementDirection =
      Direction.up := by
  have h1 : threshold < |(1 / 2 : ℚ)| := by
    rw [abs_of_nonneg (by norm_num : (0 : ℚ) ≤ 1 / 2)]
    norm_num [threshold]
  norm_num [countReps, h1]

/-- Claim C10 (amended): when the stored previous hip height is exactly
0 the next frame is handled as cold start (previous seeded, no direction
change, no count change, no emission), and processing any frame whose
hip-center height is exactly 0 leaves previous at 0, so a zero-height
frame never serves as the motion baseline for the following frame. -/
theorem prevZero_cold_start_next_frame (st : CounterState) (now y : ℚ)
    (h : st.previousHipY = 0) :
    countReps st now y = ({ st with previousHipY := y }, Option.none) ∧
    ∀ (st2 : CounterState) (t2 : ℚ), (countReps st2 t2 0).1.previousHipY = 0 := by
  constructor
  · simp [countReps, h]
  · intro st2 t2
    simp only [countReps]
    repeat' split
    all_goals rfl

/-- Witness for C10 amended: concrete cold-start reseeding and a zero
frame leaving previous at 0. -/
theorem prevZero_cold_start_next_frame_witness :
    countReps ⟨0, Direction.up, false, 0, 5⟩ 100 (3/10) =
      (⟨3/10, Direction.up, false, 0, 5⟩, Option.none) ∧
    (countReps ⟨1/2, Direction.none, false, 0, 0⟩ 0 0).1.previousHipY = 0 := by
  have h := prevZero_cold_start_next_frame ⟨0, Direction.up, false, 0, 5⟩ 100 (3/10) rfl
  exact ⟨h.1, h.2 ⟨1/2, Direction.none, false, 0, 0⟩ 0⟩

end PoseTrack
